import Mathlib

/-!
Shallow embedding of the zero2prod newsletter service, translated from the
Rust sources under src/.  Pure values model database rows; each HTTP handler
or background step becomes a function from the database state (plus oracles
for the external collaborators: the email provider, the validator crate, the
url crate, the grapheme segmenter) to a result, a new database state and the
list of provider invocations it performed.
-/

namespace Zero2Prod

/-- Uuids are abstracted to naturals; only identity matters to the logic. -/
abbrev Uuid := Nat

/-- Raw bytes (Vec<u8> columns and response bodies). -/
abbrev Bytes := List Nat

/-- String to bytes, one code point per byte (exact for the ASCII strings the
code stores, e.g. the location header value). -/
def strBytes (s : String) : Bytes := s.data.map Char.toNat

/-! ## domain/subscription.rs -/

/-- SubscriptionStatus from src/domain/subscription.rs. -/
inductive SubscriptionStatus where
  | pendingConfirmation
  | confirmed
  deriving DecidableEq

/-- strum Display with serialize_all = "snake_case". -/
def SubscriptionStatus.asString : SubscriptionStatus → String
  | .pendingConfirmation => "pending_confirmation"
  | .confirmed => "confirmed"

/-- Rust str::to_lowercase, modelled per character. -/
def strToLower (s : String) : String := String.mk (s.data.map Char.toLower)

/-- TryFrom<String> for SubscriptionStatus: matches on the lowercased string. -/
def SubscriptionStatus.tryFrom (s : String) : Except String SubscriptionStatus :=
  if strToLower s = "pending_confirmation" then .ok .pendingConfirmation
  else if strToLower s = "confirmed" then .ok .confirmed
  else .error (s ++ " is not a valid subscription status")

/-- ParseSubscriptionTokenError from src/domain/subscription.rs. -/
inductive ParseSubscriptionTokenError where
  | invalidLength
  | notAlphanumeric
  deriving DecidableEq

/-- TOKEN_LENGTH constant of SubscriptionToken. -/
def tokenLength : Nat := 25

/-- SubscriptionToken::parse: the alphanumeric check runs first, then the
length check.  char::is_alphanumeric is modelled by Char.isAlphanum, which
coincides with it on ASCII input. -/
def SubscriptionToken.parse (s : String) : Except ParseSubscriptionTokenError String :=
  if ¬ s.data.all Char.isAlphanum then .error .notAlphanumeric
  else if s.data.length ≠ tokenLength then .error .invalidLength
  else .ok s

/-! ## domain/name.rs -/

/-- MAX_SUBSCRIBER_NAME_LENGTH from src/domain/name.rs. -/
def nameMaxLength : Nat := 256

/-- Rust str::trim: drop leading and trailing whitespace characters
(Char.isWhitespace coincides with char::is_whitespace on ASCII input). -/
def strTrim (s : String) : String :=
  String.mk (((s.data.dropWhile Char.isWhitespace).reverse.dropWhile Char.isWhitespace).reverse)

/-- Forbidden characters of Name::parse (the last two are the curly braces). -/
def forbiddenNameChars : List Char :=
  ['/', '(', ')', '\"', '<', '>', '\\', Char.ofNat 123, Char.ofNat 125]

/-- Name::parse from src/domain/name.rs, parameterised by the external
unicode-segmentation grapheme counter gc.  Note that only the emptiness check
looks at the trimmed string; the length and forbidden-character checks and the
stored value use the untrimmed input. -/
def Name.parse (gc : String → Nat) (s : String) : Except String String :=
  if (strTrim s).data.isEmpty || decide (gc s > nameMaxLength)
      || s.data.any (fun c => forbiddenNameChars.contains c) then
    .error (s ++ " is not a valid subscriber name.")
  else
    .ok s

/-- Name validation as the spec words it ("trim, then length and
forbidden-char checks", stored name trimmed): used only to compare the spec
against Name.parse. -/
def Name.parseSpec (gc : String → Nat) (s : String) : Except String String :=
  let t := strTrim s
  if t.data.isEmpty || decide (gc t > nameMaxLength)
      || t.data.any (fun c => forbiddenNameChars.contains c) then
    .error (s ++ " is not a valid subscriber name.")
  else
    .ok t

/-- On ASCII strings every extended grapheme cluster is a single character, so
the unicode-segmentation count equals the character count. -/
def asciiGraphemeCount (s : String) : Nat := s.length

/-! ## domain/email.rs -/

/-- Email::parse from src/domain/email.rs delegates to the external validator
crate; the embedding takes that predicate as a parameter and returns the input
unchanged exactly when it holds. -/
def Email.parse (emailValid : String → Bool) (s : String) : Except String String :=
  if emailValid s then .ok s
  else .error (s ++ " is not a valid subscriber email.")

/-! ## Database rows and state -/

/-- Row of the subscriptions table. -/
structure SubscriberRow where
  id : Uuid
  name : String
  email : String
  status : String
  deriving DecidableEq

/-- Row of the subscription_tokens table. -/
structure TokenRow where
  token : String
  subscriberId : Uuid
  deriving DecidableEq

/-- Stored (non-null) response columns of the idempotency table.  The status
code column is an i16 in Postgres, hence an Int here. -/
structure StoredResponse where
  statusCode : Int
  headers : List (String × Bytes)
  body : Bytes
  deriving DecidableEq

/-- Row of the idempotency table; response = none models the three response
columns being NULL (the in-flight state). -/
structure IdempotencyRow where
  userId : Uuid
  key : String
  response : Option StoredResponse
  deriving DecidableEq

/-- Row of the newsletter_issues table. -/
structure IssueRow where
  issueId : Uuid
  title : String
  textContent : String
  htmlContent : String
  deriving DecidableEq

/-- Row of the issue_delivery_queue table (primary key is the pair). -/
structure QueueRow where
  issueId : Uuid
  email : String
  deriving DecidableEq

/-- One invocation of EmailClient::send_email (one HTTP POST to the provider). -/
structure SentEmail where
  toAddr : String
  subject : String
  html : String
  text : String
  deriving DecidableEq

/-- The database state. -/
structure Db where
  subscriptions : List SubscriberRow
  subscriptionTokens : List TokenRow
  idempotency : List IdempotencyRow
  newsletterIssues : List IssueRow
  issueDeliveryQueue : List QueueRow
  deriving DecidableEq

/-! ## HTTP responses -/

/-- An axum Response as the idempotency layer observes it: status code,
ordered (name, value-bytes) header pairs, body bytes. -/
structure HttpResponse where
  status : Nat
  headers : List (String × Bytes)
  body : Bytes
  deriving DecidableEq

/-- Redirect::to("/admin/newsletters").into_response(): a 303 See Other with a
location header and an empty body. -/
def redirectToAdminNewsletters : HttpResponse :=
  { status := 303
    headers := [("location", strBytes "/admin/newsletters")]
    body := [] }

/-! ## idempotency/persistence.rs -/

/-- Rust u16-to-i16 `as` cast (wrapping), used by save_response on the status
code. -/
def toI16 (n : Nat) : Int := (((n % 65536 : Nat) : Int) + 32768) % 65536 - 32768

/-- Column extraction performed by save_response: status as i16, header
(name, value-bytes) pairs in iteration order, body bytes. -/
def encodeResponse (r : HttpResponse) : StoredResponse :=
  { statusCode := toI16 r.status, headers := r.headers, body := r.body }

/-- i16-to-u16 try_into: fails on negative values. -/
def i16TryIntoU16 (i : Int) : Except String Nat :=
  if i < 0 then .error "out of range integral type conversion attempted"
  else .ok i.toNat

/-- http StatusCode::from_u16: accepts exactly 100..=999. -/
def statusCodeFromU16 (n : Nat) : Except String Nat :=
  if 100 ≤ n ∧ n ≤ 999 then .ok n else .error "invalid status code"

/-- Response reconstruction performed by get_saved_response from the stored
columns; each ? in the Rust chain becomes an error propagation. -/
def decodeStoredResponse (sr : StoredResponse) : Except String HttpResponse :=
  match i16TryIntoU16 sr.statusCode with
  | .error e => .error e
  | .ok n =>
    match statusCodeFromU16 n with
    | .error e => .error e
    | .ok status => .ok { status := status, headers := sr.headers, body := sr.body }

/-- SELECT ... FROM idempotency WHERE user_id = $1 AND idempotency_key = $2. -/
def findIdempotencyRow (db : Db) (u : Uuid) (k : String) : Option IdempotencyRow :=
  db.idempotency.find? (fun r => r.userId == u && r.key == k)

/-- get_saved_response from src/idempotency/persistence.rs.  The query asserts
the three response columns non-null; a row whose columns are still NULL
therefore fails to decode at runtime and the function returns an error. -/
def getSavedResponse (db : Db) (k : String) (u : Uuid) : Except String (Option HttpResponse) :=
  match findIdempotencyRow db u k with
  | none => .ok none
  | some row =>
    match row.response with
    | none => .error "unexpected null; try decoding as an Option"
    | some sr => (decodeStoredResponse sr).map some

/-- NextAction from src/idempotency/persistence.rs; StartProcessing carries
the open transaction, modelled as the database state including the
uncommitted reservation insert. -/
inductive NextAction where
  | startProcessing (txDb : Db)
  | returnSavedResponse (r : HttpResponse)
  deriving DecidableEq

/-- try_processing from src/idempotency/persistence.rs: INSERT .. ON CONFLICT
DO NOTHING; on a fresh insert return StartProcessing with the open
transaction, otherwise fetch the saved response (erroring when it is absent
or its columns are NULL). -/
def tryProcessing (db : Db) (k : String) (u : Uuid) : Except String NextAction :=
  if (findIdempotencyRow db u k).isSome then
    match getSavedResponse db k u with
    | .error e => .error e
    | .ok none => .error "Cannot find expected saved response"
    | .ok (some r) => .ok (.returnSavedResponse r)
  else
    .ok (.startProcessing
      { db with idempotency := db.idempotency ++ [{ userId := u, key := k, response := none }] })

/-- save_response from src/idempotency/persistence.rs: UPDATE the response
columns of the (user_id, key) row on the supplied transaction, commit, and
hand the reassembled response back. -/
def saveResponse (txDb : Db) (k : String) (u : Uuid) (r : HttpResponse) :
    Db × HttpResponse :=
  ({ txDb with
      idempotency := txDb.idempotency.map (fun row =>
        if row.userId == u && row.key == k then
          { row with response := some (encodeResponse r) }
        else row) },
   r)

/-! ## routes/admin/newsletters.rs -/

/-- NewsletterFormData from src/routes/admin/newsletters.rs. -/
structure NewsletterFormData where
  title : String
  htmlContent : String
  textContent : String
  idempotencyKey : String
  deriving DecidableEq

/-- Modelled from the spec: the IdempotencyKey type (TryFrom<String>) is
missing from src/ (only its callers and src/idempotency/persistence.rs appear
there).  Per section 3 and the idempotency_malformed taxonomy entry, a key is
an opaque client string that is rejected when missing (empty) or longer than
50 characters, and kept verbatim otherwise. -/
def IdempotencyKey.tryFrom (s : String) : Except String String :=
  if s.isEmpty then .error "The idempotency key cannot be empty"
  else if s.length > 50 then .error "The idempotency key must be shorter than 50 characters"
  else .ok s

/-- Rows with status = 'confirmed', in table order (the SELECT has no ORDER
BY; the stored list order stands in for the arbitrary row order). -/
def confirmedRows (db : Db) : List SubscriberRow :=
  db.subscriptions.filter (fun s => s.status == SubscriptionStatus.confirmed.asString)

/-- get_confirmed_subscribers from src/routes/admin/newsletters.rs: select the
emails of confirmed rows and map each through Email::parse, keeping parse
failures as inner errors for the caller to skip. -/
def getConfirmedSubscribers (emailValid : String → Bool) (db : Db) :
    List (Except String String) :=
  (confirmedRows db).map (fun s => Email.parse emailValid s.email)

/-- The newsletter email the publish loop submits to send_email for one
subscriber: the form's title as subject and its html/text contents. -/
def mkNewsletterEmail (data : NewsletterFormData) (email : String) : SentEmail :=
  { toAddr := email, subject := data.title
    html := data.htmlContent, text := data.textContent }

/-- Send loop of publish_newsletter: for each Ok subscriber invoke
send_email (the oracle sendOutcome gives the provider outcome of the i-th
invocation of this call); the first transport error aborts the whole handler
with Err; Err entries (invalid stored emails) are logged and skipped.  The
returned list records every provider invocation, the failing one included. -/
def publishNewsletterLoop (sendOutcome : Nat → Bool) (data : NewsletterFormData) :
    List (Except String String) → Nat → Except String Unit × List SentEmail
  | [], _ => (.ok (), [])
  | .ok email :: rest, i =>
    let attempt : SentEmail := mkNewsletterEmail data email
    if sendOutcome i then
      let (res, more) := publishNewsletterLoop sendOutcome data rest (i + 1)
      (res, attempt :: more)
    else
      (.error ("Failed to send newsletter issue to " ++ email), [attempt])
  | .error _ :: rest, i => publishNewsletterLoop sendOutcome data rest i

/-- publish_newsletter from src/routes/admin/newsletters.rs: fetch the
confirmed subscribers and run the send loop.  The database is only read. -/
def publishNewsletter (emailValid : String → Bool) (sendOutcome : Nat → Bool)
    (db : Db) (data : NewsletterFormData) : Except String Unit × List SentEmail :=
  publishNewsletterLoop sendOutcome data (getConfirmedSubscribers emailValid db) 0

/-- Modelled from the spec: publish_newsletter_with_idempotent_handling calls
save_response(&state.db_pool, ...), a pool-based variant that is missing from
src/ (the persistence.rs save_response takes a transaction instead).  Per
section 4.D finish, it stores the (status, headers, body) of the response for
(user_id, key); since the route never reserved a row, storing means writing
the row for that pair. -/
def saveResponsePool (db : Db) (k : String) (u : Uuid) (r : HttpResponse) :
    Db × HttpResponse :=
  match findIdempotencyRow db u k with
  | some _ =>
    ({ db with
        idempotency := db.idempotency.map (fun row =>
          if row.userId == u && row.key == k then
            { row with response := some (encodeResponse r) }
          else row) },
     r)
  | none =>
    ({ db with
        idempotency := db.idempotency
          ++ [{ userId := u, key := k, response := some (encodeResponse r) }] },
     r)

/-- publish_newsletter_with_idempotent_handling from
src/routes/admin/newsletters.rs: parse the idempotency key, return the saved
response when one exists, otherwise publish (sending the emails inline), then
memoize and return the redirect response. -/
def publishNewsletterWithIdempotentHandling (emailValid : String → Bool)
    (sendOutcome : Nat → Bool) (db : Db) (u : Uuid) (data : NewsletterFormData) :
    Except String HttpResponse × Db × List SentEmail :=
  match IdempotencyKey.tryFrom data.idempotencyKey with
  | .error e => (.error e, db, [])
  | .ok key =>
    match getSavedResponse db key u with
    | .error e => (.error e, db, [])
    | .ok (some saved) => (.ok saved, db, [])
    | .ok none =>
      match publishNewsletter emailValid sendOutcome db data with
      | (.error e, sent) => (.error e, db, sent)
      | (.ok _, sent) =>
        let (db2, resp) := saveResponsePool db key u redirectToAdminNewsletters
        (.ok resp, db2, sent)

/-! ## issue_delivery_worker.rs -/

/-- ExecutionOutcome from src/issue_delivery_worker.rs. -/
inductive ExecutionOutcome where
  | taskCompleted
  | emptyQueue
  deriving DecidableEq

/-- delete_task: DELETE FROM issue_delivery_queue WHERE both key columns
match, then commit the transaction that performed the dequeue. -/
def deleteTask (db : Db) (issueId : Uuid) (email : String) : Db :=
  { db with
      issueDeliveryQueue :=
        db.issueDeliveryQueue.filter (fun r => !(r.issueId == issueId && r.email == email)) }

/-- get_issue: fetch_one on newsletter_issues; errors when the issue row is
absent. -/
def getIssue (db : Db) (issueId : Uuid) : Except String IssueRow :=
  match db.newsletterIssues.find? (fun i => i.issueId == issueId) with
  | some i => .ok i
  | none => .error "no rows returned by a query that expected to return at least one row"

/-- dequeue_task: SELECT ... FOR UPDATE SKIP LOCKED LIMIT 1; the head of the
queue list stands in for the arbitrary row the database picks. -/
def dequeueTask (db : Db) : Option QueueRow := db.issueDeliveryQueue.head?

/-- try_execute_task from src/issue_delivery_worker.rs: dequeue one task; on
an invalid stored email log and fall through without contacting the provider;
on a valid email fetch the issue and invoke send_email, logging a transport
failure without acting on it; in every non-error path delete the task on the
dequeue transaction and commit.  A get_issue failure propagates with the
transaction dropped, so the task stays queued.  sendOk is the provider
outcome of the (single) send this step may perform. -/
def tryExecuteTask (emailValid : String → Bool) (sendOk : Bool) (db : Db) :
    Except String (ExecutionOutcome × Db × List SentEmail) :=
  match dequeueTask db with
  | none => .ok (.emptyQueue, db, [])
  | some task =>
    match Email.parse emailValid task.email with
    | .ok email =>
      match getIssue db task.issueId with
      | .error e => .error e
      | .ok issue =>
        let attempt : SentEmail :=
          { toAddr := email, subject := issue.title
            html := issue.htmlContent, text := issue.textContent }
        -- send_email happens here; its outcome sendOk is only logged
        .ok (.taskCompleted, deleteTask db task.issueId task.email, [attempt])
    | .error _ =>
      .ok (.taskCompleted, deleteTask db task.issueId task.email, [])

/-! ## External collaborators

The subscribe path touches several external crates (unicode-segmentation,
validator, the url crate's RFC 3986 join, the tera template file, which is
not under src/).  They are bundled as a capability record the operations are
parameterised over. -/

structure Externals where
  /-- unicode-segmentation extended grapheme cluster count. -/
  gc : String → Nat
  /-- the validator crate's ValidateEmail check. -/
  emailValid : String → Bool
  /-- reqwest::Url::join (RFC 3986 reference resolution). -/
  joinUrl : String → String → String
  /-- the confirmation_email.html tera template rendered with (name, link). -/
  renderConfirmationHtml : String → String → String

/-! ## routes/subscriptions.rs -/

/-- SubscribeFormData from src/routes/subscriptions.rs. -/
structure SubscribeFormData where
  name : String
  email : String
  deriving DecidableEq

/-- SubscribeError from src/routes/subscriptions.rs. -/
inductive SubscribeError where
  | formValidation
  | alreadyConfirmed
  | unexpected (msg : String)
  deriving DecidableEq

/-- SELECT id, name, email, status FROM subscriptions WHERE email = $1. -/
def findSubscriberByEmail (db : Db) (email : String) : Option SubscriberRow :=
  db.subscriptions.find? (fun s => s.email == email)

/-- ExistingSubscriber from src/routes/subscriptions.rs (the parsed row). -/
structure ExistingSubscriber where
  id : Uuid
  name : String
  status : SubscriptionStatus

/-- get_existing_subscriber from src/routes/subscriptions.rs: fetch the row by
email and re-parse its name, email and status columns; any parse failure
propagates as an error. -/
def getExistingSubscriber (ext : Externals) (db : Db) (email : String) :
    Except String (Option ExistingSubscriber) :=
  match findSubscriberByEmail db email with
  | none => .ok none
  | some r => do
    let n ← Name.parse ext.gc r.name
    let _ ← Email.parse ext.emailValid r.email
    let st ← SubscriptionStatus.tryFrom r.status
    .ok (some { id := r.id, name := n, status := st })

/-- get_existing_subscription_token: fetch_one on subscription_tokens by
subscriber id (errors when no token row exists), then
SubscriptionToken::parse on the stored string. -/
def getExistingSubscriptionToken (db : Db) (subscriberId : Uuid) : Except String String :=
  match db.subscriptionTokens.find? (fun t => t.subscriberId == subscriberId) with
  | none => .error "no rows returned by a query that expected to return at least one row"
  | some t =>
    match SubscriptionToken.parse t.token with
    | .ok tok => .ok tok
    | .error _ => .error "invalid stored token"

/-- Confirmation link built by send_confirmation_email:
base.join("subscribe/confirm") followed by set_query("subscription_token=t"). -/
def confirmationLink (ext : Externals) (baseUrl token : String) : String :=
  ext.joinUrl baseUrl "subscribe/confirm" ++ "?subscription_token=" ++ token

/-- Confirmation email assembled by send_confirmation_email from
src/routes/subscriptions.rs: subject "Welcome!", html from the template, and
the literal plain-text body around the link. -/
def confirmationEmail (ext : Externals) (baseUrl name email token : String) : SentEmail :=
  let link := confirmationLink ext baseUrl token
  { toAddr := email
    subject := "Welcome!"
    html := ext.renderConfirmationHtml name link
    text := "Welcome to our newsletter!\nVisit " ++ link ++ " to confirm your subscription." }

/-- subscribe from src/routes/subscriptions.rs.  newId and newToken are the
oracles for Uuid::new_v7 and SubscriptionToken::generate; sendOk is the
provider outcome of the confirmation send.  Returns the handler result, the
database after commit/rollback, and the provider invocations made. -/
def subscribe (ext : Externals) (sendOk : Bool) (newId : Uuid) (newToken : String)
    (baseUrl : String) (db : Db) (data : SubscribeFormData) :
    Except SubscribeError Unit × Db × List SentEmail :=
  match Name.parse ext.gc data.name with
  | .error _ => (.error .formValidation, db, [])
  | .ok _name =>
    match Email.parse ext.emailValid data.email with
    | .error _ => (.error .formValidation, db, [])
    | .ok email =>
      match getExistingSubscriber ext db email with
      | .error e => (.error (.unexpected e), db, [])
      | .ok (some sub) =>
        if sub.status = .confirmed then
          (.error .alreadyConfirmed, db, [])
        else
          match getExistingSubscriptionToken db sub.id with
          | .error e => (.error (.unexpected e), db, [])
          | .ok token =>
            -- rollback: the database is returned unchanged; the stored name
            -- replaces the submitted one for the email
            let mail := confirmationEmail ext baseUrl sub.name email token
            (if sendOk then .ok () else .error (.unexpected "Failed to send a new confirmation email"),
             db, [mail])
      | .ok none =>
        -- insert_pending + store_token, then commit
        let newRow : SubscriberRow :=
          { id := newId, name := _name, email := email
            status := SubscriptionStatus.pendingConfirmation.asString }
        let db2 :=
          { db with
              subscriptions := db.subscriptions ++ [newRow]
              subscriptionTokens :=
                db.subscriptionTokens ++ [{ token := newToken, subscriberId := newId }] }
        let mail := confirmationEmail ext baseUrl _name email newToken
        (if sendOk then .ok () else .error (.unexpected "Failed to send a new confirmation email"),
         db2, [mail])

/-! ## routes/subscriptions_confirm.rs -/

/-- ConfirmSubscriptionError from src/routes/subscriptions_confirm.rs. -/
inductive ConfirmSubscriptionError where
  | tokenValidation (e : ParseSubscriptionTokenError)
  | tokenNotFound
  | alreadyConfirmed
  | unexpected (msg : String)
  deriving DecidableEq

/-- IntoResponse for ConfirmSubscriptionError: the HTTP status code each error
kind maps to. -/
def ConfirmSubscriptionError.statusCode : ConfirmSubscriptionError → Nat
  | .tokenValidation _ => 401
  | .tokenNotFound => 401
  | .alreadyConfirmed => 409
  | .unexpected _ => 500

/-- get_subscriber_id_from_token: SELECT subscriber_id FROM
subscription_tokens WHERE subscription_token = $1 (fetch_optional). -/
def getSubscriberIdFromToken (db : Db) (token : String) : Option Uuid :=
  (db.subscriptionTokens.find? (fun t => t.token == token)).map (fun t => t.subscriberId)

/-- get_subscriber_status: fetch_one on subscriptions by id (errors when the
row is absent), then TryFrom on the status column. -/
def getSubscriberStatus (db : Db) (id : Uuid) : Except String SubscriptionStatus :=
  match db.subscriptions.find? (fun s => s.id == id) with
  | none => .error "no rows returned by a query that expected to return at least one row"
  | some r => SubscriptionStatus.tryFrom r.status

/-- confirm_subscriber: UPDATE subscriptions SET status = 'confirmed' WHERE
id = $2. -/
def confirmSubscriber (db : Db) (id : Uuid) : Db :=
  { db with
      subscriptions := db.subscriptions.map (fun s =>
        if s.id == id then { s with status := SubscriptionStatus.confirmed.asString } else s) }

/-- confirm from src/routes/subscriptions_confirm.rs: parse the token, look up
the subscriber id, reject when already confirmed, otherwise mark confirmed. -/
def confirm (db : Db) (tokenStr : String) : Except ConfirmSubscriptionError Unit × Db :=
  match SubscriptionToken.parse tokenStr with
  | .error e => (.error (.tokenValidation e), db)
  | .ok token =>
    match getSubscriberIdFromToken db token with
    | none => (.error .tokenNotFound, db)
    | some id =>
      match getSubscriberStatus db id with
      | .error e => (.error (.unexpected e), db)
      | .ok .confirmed => (.error .alreadyConfirmed, db)
      | .ok .pendingConfirmation => (.ok (), confirmSubscriber db id)

/-! ## email_client.rs -/

/-- Configuration of EmailClient as send_email uses it. -/
structure EmailClientConfig where
  sender : String
  baseUrl : String
  authorizationToken : String

/-- The single outbound HTTP request send_email issues; the JSON body is kept
as its ordered key/value pairs. -/
structure HttpRequest where
  method : String
  url : String
  headers : List (String × String)
  jsonBody : List (String × String)
  deriving DecidableEq

/-- Request built by EmailClient::send_email: one POST to base_url joined with
"email", the X-Postmark-Server-Token header, and the SendEmailRequest body
serialised with PascalCase keys. -/
def sendEmailRequest (join : String → String → String) (c : EmailClientConfig)
    (recipient subject htmlContent textContent : String) : HttpRequest :=
  { method := "POST"
    url := join c.baseUrl "email"
    headers := [("X-Postmark-Server-Token", c.authorizationToken)]
    jsonBody :=
      [("From", c.sender), ("To", recipient), ("Subject", subject),
       ("HtmlBody", htmlContent), ("TextBody", textContent)] }

/-- Outcome of the provider call: either no response within the per-call
timeout, or a response with the given status code. -/
inductive ProviderOutcome where
  | timeout
  | status (n : Nat)
  deriving DecidableEq

/-- Result handling of EmailClient::send_email: send() fails on timeout, and
error_for_status() turns a response into an error exactly when its status is
a client error (400..=499) or server error (500..=599). -/
def sendEmailResult : ProviderOutcome → Except String Unit
  | .timeout => .error "operation timed out"
  | .status n => if 400 ≤ n ∧ n ≤ 599 then .error "HTTP status error" else .ok ()

/-! ## Auxiliary definitions used by the verification -/

/-- The Ok entries of a subscriber fetch, in order (the emails the publish
loop will actually attempt). -/
def okEmails : List (Except String String) → List String
  | [] => []
  | .ok e :: rest => e :: okEmails rest
  | .error _ :: rest => okEmails rest

/-! ## Concrete instances for evaluation

Concrete states and capability instances on which the operations are
evaluated.  The Externals fields below agree with the external crates on
every concrete input they are applied to in this file: the inputs are ASCII
(graphemes = characters), and the sample addresses are accepted by the
validator crate while "not-an-email" is rejected. -/

def extW : Externals :=
  { gc := asciiGraphemeCount
    emailValid := fun s => s.data.contains '@'
    joinUrl := fun b p => b ++ p
    renderConfirmationHtml := fun n l => n ++ " " ++ l }

def emptyDb : Db :=
  { subscriptions := [], subscriptionTokens := [], idempotency := []
    newsletterIssues := [], issueDeliveryQueue := [] }

def bobRowConfirmed : SubscriberRow :=
  { id := 1, name := "Bob", email := "bob@example.com", status := "confirmed" }

def dbOneConfirmed : Db := { emptyDb with subscriptions := [bobRowConfirmed] }

def dbTwoConfirmed : Db :=
  { emptyDb with
      subscriptions :=
        [{ id := 1, name := "Ann", email := "ann@example.com", status := "confirmed" },
         { id := 2, name := "Bob", email := "bob@example.com", status := "confirmed" }] }

def data0 : NewsletterFormData :=
  { title := "T", htmlContent := "<p>x</p>", textContent := "x", idempotencyKey := "K1" }

def dbInFlight : Db :=
  { emptyDb with idempotency := [{ userId := 7, key := "K1", response := none }] }

def dbSavedRow : IdempotencyRow :=
  { userId := 7, key := "K1", response := some (encodeResponse redirectToAdminNewsletters) }

def dbSaved : Db := { emptyDb with idempotency := [dbSavedRow] }

def tokenBob : String := "vC8nGu4tq3DwcXu5rhLXa0Y7S"

def bobRowPending : SubscriberRow :=
  { id := 1, name := "Bob", email := "bob@example.com", status := "pending_confirmation" }

def dbPending : Db :=
  { emptyDb with
      subscriptions := [bobRowPending]
      subscriptionTokens := [{ token := tokenBob, subscriberId := 1 }] }

def dataBob : SubscribeFormData := { name := "Bob", email := "bob@example.com" }

def issue9 : IssueRow :=
  { issueId := 9, title := "T", textContent := "x", htmlContent := "<p>x</p>" }

def dbQueue : Db :=
  { emptyDb with
      newsletterIssues := [issue9]
      issueDeliveryQueue := [{ issueId := 9, email := "bob@example.com" }] }

/-! ## Helper lemmas -/

theorem find?_append_left_none {α : Type} (p : α → Bool) (l₁ l₂ : List α)
    (h : l₁.find? p = none) : (l₁ ++ l₂).find? p = l₂.find? p := by
  induction l₁ with
  | nil => rfl
  | cons x xs ih =>
    cases hp : p x with
    | true => simp [List.find?, hp] at h
    | false =>
      simp only [List.find?, hp, List.cons_append] at h ⊢
      exact ih h

theorem find?_append_left_some {α : Type} (p : α → Bool) (l₁ l₂ : List α) (a : α)
    (h : l₁.find? p = some a) : (l₁ ++ l₂).find? p = some a := by
  induction l₁ with
  | nil => simp [List.find?] at h
  | cons x xs ih =>
    cases hp : p x with
    | true =>
      simp only [List.find?, hp, List.cons_append] at h ⊢
      exact h
    | false =>
      simp only [List.find?, hp, List.cons_append] at h ⊢
      exact ih h

theorem find?_update_first {α : Type} (p : α → Bool) (f : α → α) (l : List α) (a : α)
    (h : l.find? p = some a) (hfa : p (f a) = true) :
    (l.map (fun x => if p x then f x else x)).find? p = some (f a) := by
  induction l with
  | nil => simp [List.find?] at h
  | cons x xs ih =>
    cases hp : p x with
    | true =>
      simp only [List.find?, hp, Option.some.injEq] at h
      subst h
      simp [List.find?, hp, hfa]
    | false =>
      simp only [List.find?, hp] at h
      have hx : (if false = true then f x else x) = x := rfl
      simp only [List.map, hp, hx, List.find?]
      exact ih h

theorem decode_encode_response (r : HttpResponse) (h1 : 100 ≤ r.status)
    (h2 : r.status ≤ 999) : decodeStoredResponse (encodeResponse r) = .ok r := by
  have hcast : toI16 r.status = (r.status : Int) := by
    unfold toI16
    rw [Nat.mod_eq_of_lt (by omega)]
    rw [Int.emod_eq_of_lt (by omega) (by omega)]
    omega
  have e1 : i16TryIntoU16 (toI16 r.status) = .ok r.status := by
    unfold i16TryIntoU16
    rw [hcast, if_neg (by omega)]
    simp
  have e2 : statusCodeFromU16 r.status = .ok r.status := by
    unfold statusCodeFromU16
    rw [if_pos ⟨h1, h2⟩]
  simp only [decodeStoredResponse, encodeResponse, e1, e2]

theorem getSavedResponse_ok_none (db : Db) (k : String) (u : Uuid)
    (h : getSavedResponse db k u = .ok none) : findIdempotencyRow db u k = none := by
  cases hf : findIdempotencyRow db u k with
  | none => rfl
  | some row =>
    exfalso
    simp only [getSavedResponse, hf] at h
    cases hr : row.response with
    | none => simp only [hr] at h; simp at h
    | some sr =>
      simp only [hr] at h
      cases hd : decodeStoredResponse sr with
      | error e => simp only [hd, Except.map] at h; simp at h
      | ok r2 => simp only [hd, Except.map] at h; simp at h

theorem loop_all_ok (data : NewsletterFormData) :
    ∀ (entries : List (Except String String)) (i : Nat),
      publishNewsletterLoop (fun _ => true) data entries i
        = (.ok (), (okEmails entries).map (mkNewsletterEmail data)) := by
  intro entries
  induction entries with
  | nil => intro i; rfl
  | cons x rest ih =>
    intro i
    cases x with
    | ok e => simp [publishNewsletterLoop, okEmails, ih (i + 1)]
    | error e => simp [publishNewsletterLoop, okEmails, ih i]

theorem loop_fail_at (sendOutcome : Nat → Bool) (data : NewsletterFormData)
    (y : String) (zs : List (Except String String)) :
    ∀ (xs : List String) (i : Nat),
      (∀ j, j < xs.length → sendOutcome (i + j) = true) →
      sendOutcome (i + xs.length) = false →
      publishNewsletterLoop sendOutcome data (xs.map .ok ++ .ok y :: zs) i
        = (.error ("Failed to send newsletter issue to " ++ y),
           xs.map (mkNewsletterEmail data) ++ [mkNewsletterEmail data y]) := by
  intro xs
  induction xs with
  | nil =>
    intro i _ hfail
    simp only [List.length_nil, Nat.add_zero] at hfail
    simp [publishNewsletterLoop, hfail]
  | cons x rest ih =>
    intro i hok hfail
    have hx : sendOutcome i = true := by
      have := hok 0 (by simp)
      simpa using this
    have hrest : ∀ j, j < rest.length → sendOutcome (i + 1 + j) = true := by
      intro j hj
      have := hok (j + 1) (by simp; omega)
      rwa [show i + (j + 1) = i + 1 + j by omega] at this
    have hfail2 : sendOutcome (i + 1 + rest.length) = false := by
      rwa [show i + 1 + rest.length = i + (rest.length + 1) by omega]
    simp [publishNewsletterLoop, hx, ih (i + 1) hrest hfail2]

theorem okEmails_all_valid (v : String → Bool) :
    ∀ rows : List SubscriberRow, (∀ s ∈ rows, v s.email = true) →
      okEmails (rows.map (fun s => Email.parse v s.email)) = rows.map (fun s => s.email) := by
  intro rows
  induction rows with
  | nil => intro _; rfl
  | cons s rest ih =>
    intro h
    have hs : Email.parse v s.email = .ok s.email := by
      simp [Email.parse, h s (by simp)]
    simp only [List.map, hs, okEmails]
    rw [ih (fun x hx => h x (by simp [hx]))]

/-! ## C8: email transport contract -/

/-- C8 counterexample: the claim says send_email returns a transport error for
any non-2xx response status, but a 300 response is accepted (error_for_status
only rejects 4xx/5xx), so the claim fails at status 300. -/
theorem c8_counterexample :
    sendEmailResult (ProviderOutcome.status 300) = .ok () ∧ ¬ (200 ≤ 300 ∧ 300 ≤ 299) :=
  ⟨rfl, by decide⟩

/-- C8 (amended): send_email issues exactly one HTTP POST to the provider URL
(base joined with "email") with the X-Postmark-Server-Token header and a JSON
body whose keys are From, To, Subject, HtmlBody, TextBody; it fails on
timeout, returns a transport error exactly for 4xx/5xx response statuses, and
returns ok for every other status, with no retries at this layer. -/
theorem c8_send_email_contract (join : String → String → String)
    (c : EmailClientConfig) (recipient subject htmlContent textContent : String) :
    (sendEmailRequest join c recipient subject htmlContent textContent).method = "POST" ∧
    (sendEmailRequest join c recipient subject htmlContent textContent).url
      = join c.baseUrl "email" ∧
    (sendEmailRequest join c recipient subject htmlContent textContent).headers
      = [("X-Postmark-Server-Token", c.authorizationToken)] ∧
    (sendEmailRequest join c recipient subject htmlContent textContent).jsonBody
      = [("From", c.sender), ("To", recipient), ("Subject", subject),
         ("HtmlBody", htmlContent), ("TextBody", textContent)] ∧
    (∀ n : Nat, sendEmailResult (.status n) = .ok () ↔ ¬ (400 ≤ n ∧ n ≤ 599)) ∧
    (sendEmailResult .timeout).isOk = false := by
  refine ⟨rfl, rfl, rfl, rfl, ?_, rfl⟩
  intro n
  by_cases h : 400 ≤ n ∧ n ≤ 599 <;> simp [sendEmailResult, h]

/-! ## C9: subscriber name validation -/

/-- C9 counterexample: the claim says the accepted (stored) name is the
trimmed input, but Name::parse accepts " a" and stores it untrimmed: the
stored value " a" differs from the trimmed form "a". -/
theorem c9_counterexample :
    Name.parse asciiGraphemeCount " a" = .ok " a" ∧
    Name.parseSpec asciiGraphemeCount " a" = .ok "a" ∧
    strTrim " a" = "a" ∧ (" a" : String) ≠ "a" := by
  refine ⟨rfl, rfl, by decide, by decide⟩

/-- C9 (amended): Name::parse uses the trimmed string only for the emptiness
check; the grapheme-length bound and the forbidden-character check apply to
the untrimmed input, and the accepted (stored) name is the untrimmed input
itself: it accepts exactly the inputs that are not whitespace-only, have at
most 256 graphemes untrimmed, and contain no forbidden character untrimmed. -/
theorem c9_name_validation (gc : String → Nat) (s : String) :
    ((Name.parse gc s).isOk = true ↔
      ((strTrim s).data.isEmpty = false ∧ gc s ≤ nameMaxLength ∧
       s.data.any (fun c => forbiddenNameChars.contains c) = false)) ∧
    (∀ t, Name.parse gc s = .ok t → t = s) := by
  have hchar : ∀ cond : Bool,
      (if cond = true then Except.error (s ++ " is not a valid subscriber name.")
       else Except.ok s).isOk = true ↔ cond = false := by
    intro cond
    cases cond <;> simp [Except.isOk, Except.toBool]
  constructor
  · unfold Name.parse
    rw [hchar]
    constructor
    · intro h
      simp only [Bool.or_eq_false_iff] at h
      obtain ⟨⟨ha, hb⟩, hc⟩ := h
      exact ⟨ha, Nat.le_of_not_lt (of_decide_eq_false hb), hc⟩
    · intro h
      obtain ⟨ha, hb, hc⟩ := h
      rw [ha, hc]
      simp only [Bool.false_or, Bool.or_false]
      exact decide_eq_false (by omega)
  · intro t ht
    unfold Name.parse at ht
    split at ht
    · exact Except.noConfusion ht
    · injection ht with h
      exact h.symm

/-- C9 witness: the validation characterization evaluated at "Bob": accepted,
and the accepted value is the input itself. -/
theorem c9_name_validation_witness :
    (Name.parse asciiGraphemeCount "Bob").isOk = true ∧ ("Bob" : String) = "Bob" := by
  refine ⟨(c9_name_validation asciiGraphemeCount "Bob").1.mpr
    ⟨by decide, by decide, by decide⟩,
    (c9_name_validation asciiGraphemeCount "Bob").2 "Bob" rfl⟩

/-! ## C3: try_processing branches -/

/-- C3 counterexample: the claim says that when the (user_id, key) row exists
with null response columns (another caller mid-flight), try_processing
returns the last-stored response or a deterministic processing response and
does not fail; but on such a row the code fails: the ON CONFLICT insert
affects zero rows and get_saved_response chokes on the NULL columns, so
try_processing returns an error. -/
theorem c3_counterexample :
    findIdempotencyRow dbInFlight 7 "K1" = some { userId := 7, key := "K1", response := none } ∧
    tryProcessing dbInFlight "K1" 7
      = .error "unexpected null; try decoding as an Option" := by
  exact ⟨rfl, rfl⟩

/-- C3 (amended): for every (user_id, key), try_processing inserts the
reservation row with null response columns and returns StartProcessing with
the open transaction when no row existed; when a row already exists with a
populated (decodable) response it returns it as ReturnSavedResponse; when a
row exists whose response columns are still null (another caller mid-flight)
it returns an error instead of a processing response. -/
theorem c3_try_processing (db : Db) (k : String) (u : Uuid) :
    (findIdempotencyRow db u k = none →
      tryProcessing db k u = .ok (.startProcessing
        { db with idempotency := db.idempotency ++ [{ userId := u, key := k, response := none }] })) ∧
    (∀ row sr r, findIdempotencyRow db u k = some row → row.response = some sr →
      decodeStoredResponse sr = .ok r →
      tryProcessing db k u = .ok (.returnSavedResponse r)) ∧
    (∀ row, findIdempotencyRow db u k = some row → row.response = none →
      tryProcessing db k u = .error "unexpected null; try decoding as an Option") := by
  refine ⟨?_, ?_, ?_⟩
  · intro hnone
    unfold tryProcessing
    rw [hnone]
    rfl
  · intro row sr r hrow hresp hdec
    have hsaved : getSavedResponse db k u = .ok (some r) := by
      simp only [getSavedResponse, hrow, hresp, hdec, Except.map]
    simp only [tryProcessing, hrow, hsaved, Option.isSome_some, if_true]
  · intro row hrow hresp
    have hsaved : getSavedResponse db k u
        = .error "unexpected null; try decoding as an Option" := by
      simp only [getSavedResponse, hrow, hresp]
    simp only [tryProcessing, hrow, hsaved, Option.isSome_some, if_true]

/-- C3 witness: the amended branches evaluated at concrete states: a fresh
key reserves a null row, and a populated row replays the stored redirect. -/
theorem c3_try_processing_witness :
    tryProcessing emptyDb "K1" 7 = .ok (.startProcessing
      { emptyDb with idempotency := [{ userId := 7, key := "K1", response := none }] }) ∧
    tryProcessing dbSaved "K1" 7 = .ok (.returnSavedResponse redirectToAdminNewsletters) := by
  constructor
  · exact (c3_try_processing emptyDb "K1" 7).1 rfl
  · exact (c3_try_processing dbSaved "K1" 7).2.1 dbSavedRow
      (encodeResponse redirectToAdminNewsletters) redirectToAdminNewsletters rfl rfl
      (decode_encode_response redirectToAdminNewsletters (by decide) (by decide))

/-! ## C6: confirm flow -/

/-- C6: confirm fails with the token-validation error (HTTP 401) when the
token fails parse, with token-not-found (HTTP 401) when no subscriber
matches, and with already-confirmed (HTTP 409) when the subscriber's status
is already confirmed; otherwise it marks the subscriber confirmed, after
which a second confirm of the same token fails with already-confirmed
(HTTP 409). -/
theorem c6_confirm_flow (db : Db) (s : String) :
    (∀ e, SubscriptionToken.parse s = .error e →
      confirm db s = (.error (.tokenValidation e), db) ∧
      (ConfirmSubscriptionError.tokenValidation e).statusCode = 401) ∧
    (∀ t, SubscriptionToken.parse s = .ok t → getSubscriberIdFromToken db t = none →
      confirm db s = (.error .tokenNotFound, db) ∧
      ConfirmSubscriptionError.tokenNotFound.statusCode = 401) ∧
    (∀ t id, SubscriptionToken.parse s = .ok t → getSubscriberIdFromToken db t = some id →
      getSubscriberStatus db id = .ok .confirmed →
      confirm db s = (.error .alreadyConfirmed, db) ∧
      ConfirmSubscriptionError.alreadyConfirmed.statusCode = 409) ∧
    (∀ t id, SubscriptionToken.parse s = .ok t → getSubscriberIdFromToken db t = some id →
      getSubscriberStatus db id = .ok .pendingConfirmation →
      confirm db s = (.ok (), confirmSubscriber db id) ∧
      getSubscriberStatus (confirmSubscriber db id) id = .ok .confirmed ∧
      confirm (confirmSubscriber db id) s
        = (.error .alreadyConfirmed, confirmSubscriber db id) ∧
      ConfirmSubscriptionError.alreadyConfirmed.statusCode = 409) := by
  refine ⟨?_, ?_, ?_, ?_⟩
  · intro e he
    refine ⟨?_, rfl⟩
    simp only [confirm, he]
  · intro t ht hid
    refine ⟨?_, rfl⟩
    simp only [confirm, ht, hid]
  · intro t id ht hid hst
    refine ⟨?_, rfl⟩
    simp only [confirm, ht, hid, hst]
  · intro t id ht hid hst
    have hupd : getSubscriberStatus (confirmSubscriber db id) id = .ok .confirmed := by
      unfold getSubscriberStatus at hst
      cases hrow : db.subscriptions.find? (fun x => x.id == id) with
      | none => rw [hrow] at hst; exact Except.noConfusion hst
      | some r =>
        have hfind := find?_update_first (fun x => x.id == id)
          (fun x => { x with status := SubscriptionStatus.confirmed.asString })
          db.subscriptions r hrow (by simpa using List.find?_some hrow)
        simp only [getSubscriberStatus, confirmSubscriber, hfind]
        rfl
    have hid2 : getSubscriberIdFromToken (confirmSubscriber db id) t = some id := by
      unfold getSubscriberIdFromToken at hid ⊢
      exact hid
    refine ⟨?_, hupd, ?_, rfl⟩
    · simp only [confirm, ht, hid, hst]
    · simp only [confirm, ht, hid2, hupd]

/-- C6 witness: on the pending subscriber state, a valid stored token
confirms once and conflicts on replay. -/
theorem c6_confirm_flow_witness :
    confirm dbPending tokenBob = (.ok (), confirmSubscriber dbPending 1) ∧
    getSubscriberStatus (confirmSubscriber dbPending 1) 1 = .ok .confirmed ∧
    confirm (confirmSubscriber dbPending 1) tokenBob
      = (.error .alreadyConfirmed, confirmSubscriber dbPending 1) := by
  have h := (c6_confirm_flow dbPending tokenBob).2.2.2 tokenBob 1 (by rfl) (by rfl) (by rfl)
  exact ⟨h.1, h.2.1, h.2.2.1⟩

/-! ## C7: worker consumes each task exactly once -/

/-- C7: for every dequeued delivery task the worker consumes the task exactly
once regardless of send outcome: an invalid stored email deletes the task
without invoking the provider; with a valid email and an existing issue the
provider is invoked once and the task row is deleted whatever the provider
outcome (the result does not depend on it), the delete running on the same
transaction that performed the locking dequeue. -/
theorem c7_worker_consumes_once (emailValid : String → Bool) (db : Db) (task : QueueRow)
    (h : dequeueTask db = some task) :
    (emailValid task.email = false →
      ∀ sendOk, tryExecuteTask emailValid sendOk db
        = .ok (.taskCompleted, deleteTask db task.issueId task.email, [])) ∧
    (∀ issue, emailValid task.email = true → getIssue db task.issueId = .ok issue →
      ∀ sendOk, tryExecuteTask emailValid sendOk db
        = .ok (.taskCompleted, deleteTask db task.issueId task.email,
               [{ toAddr := task.email, subject := issue.title
                  html := issue.htmlContent, text := issue.textContent }])) ∧
    (∀ sendOk sendOk2,
      tryExecuteTask emailValid sendOk db = tryExecuteTask emailValid sendOk2 db) := by
  refine ⟨?_, ?_, fun _ _ => rfl⟩
  · intro hbad sendOk
    have hparse : Email.parse emailValid task.email
        = .error (task.email ++ " is not a valid subscriber email.") := by
      simp [Email.parse, hbad]
    simp only [tryExecuteTask, h, hparse]
  · intro issue hgood hissue sendOk
    have hparse : Email.parse emailValid task.email = .ok task.email := by
      simp [Email.parse, hgood]
    simp only [tryExecuteTask, h, hparse, hissue]

/-- C7 witness: on a queue holding one task for an existing issue, the worker
deletes the task and performs one provider invocation for both provider
outcomes. -/
theorem c7_worker_consumes_once_witness :
    tryExecuteTask extW.emailValid false dbQueue
      = .ok (.taskCompleted, deleteTask dbQueue 9 "bob@example.com",
             [{ toAddr := "bob@example.com", subject := "T"
                html := "<p>x</p>", text := "x" }]) ∧
    tryExecuteTask extW.emailValid true dbQueue = tryExecuteTask extW.emailValid false dbQueue := by
  refine ⟨?_, ?_⟩
  · exact (c7_worker_consumes_once extW.emailValid dbQueue
      { issueId := 9, email := "bob@example.com" } rfl).2.1 issue9 (by decide) rfl false
  · exact (c7_worker_consumes_once extW.emailValid dbQueue
      { issueId := 9, email := "bob@example.com" } rfl).2.2 true false

/-! ## C5: duplicate subscribe replays the same token -/

/-- C5: for a subscribe submission whose email matches an existing subscriber
with status pending_confirmation, the handler fetches the stored token, rolls
the transaction back leaving the database unchanged, and resends the
confirmation email with that same token; hence two identical submissions
produce two outbound confirmation emails with identical confirmation URLs
(whatever fresh id/token/send oracles the second request draws). -/
theorem c5_duplicate_subscribe (ext : Externals) (baseUrl : String) (db : Db)
    (data : SubscribeFormData) (r : SubscriberRow) (trow : TokenRow) (nameR : String)
    (h1 : (Name.parse ext.gc data.name).isOk = true)
    (h2 : ext.emailValid data.email = true)
    (h3 : findSubscriberByEmail db data.email = some r)
    (h4 : Name.parse ext.gc r.name = .ok nameR)
    (h5 : ext.emailValid r.email = true)
    (h6 : SubscriptionStatus.tryFrom r.status = .ok .pendingConfirmation)
    (h7 : db.subscriptionTokens.find? (fun t => t.subscriberId == r.id) = some trow)
    (h8 : SubscriptionToken.parse trow.token = .ok trow.token) :
    ∀ sendOk newId newToken sendOk2 newId2 newToken2,
      (subscribe ext sendOk newId newToken baseUrl db data).2.1 = db ∧
      (subscribe ext sendOk newId newToken baseUrl db data).2.2
        = [confirmationEmail ext baseUrl nameR data.email trow.token] ∧
      (subscribe ext sendOk2 newId2 newToken2 baseUrl
          ((subscribe ext sendOk newId newToken baseUrl db data).2.1) data).2.2
        = [confirmationEmail ext baseUrl nameR data.email trow.token] := by
  intro sendOk newId newToken sendOk2 newId2 newToken2
  obtain ⟨nm, hnm⟩ : ∃ nm, Name.parse ext.gc data.name = .ok nm := by
    cases hh : Name.parse ext.gc data.name with
    | ok nm => exact ⟨nm, rfl⟩
    | error e => rw [hh] at h1; simp [Except.isOk, Except.toBool] at h1
  have hmail : Email.parse ext.emailValid data.email = .ok data.email := by
    simp [Email.parse, h2]
  have hmailr : Email.parse ext.emailValid r.email = .ok r.email := by
    simp [Email.parse, h5]
  have hexist : getExistingSubscriber ext db data.email
      = .ok (some { id := r.id, name := nameR, status := .pendingConfirmation }) := by
    simp only [getExistingSubscriber, h3, h4, h5, h6, hmailr, Except.bind, bind]
  have htok : getExistingSubscriptionToken db r.id = .ok trow.token := by
    simp only [getExistingSubscriptionToken, h7, h8]
  have hrun : ∀ so ni nt, subscribe ext so ni nt baseUrl db data
      = (if so then .ok () else .error (.unexpected "Failed to send a new confirmation email"),
         db, [confirmationEmail ext baseUrl nameR data.email trow.token]) := by
    intro so ni nt
    simp only [subscribe, hnm, hmail, hexist, htok]
    rfl
  refine ⟨?_, ?_, ?_⟩
  · rw [hrun sendOk newId newToken]
  · rw [hrun sendOk newId newToken]
  · rw [hrun sendOk newId newToken]
    exact (congrArg (fun p => p.2.2) (hrun sendOk2 newId2 newToken2))

/-- C5 witness: the pending subscriber state replays the stored 25-character
token on both of two identical submissions, leaving the database unchanged. -/
theorem c5_duplicate_subscribe_witness :
    (subscribe extW true 2 "x" "http://b/" dbPending dataBob).2.1 = dbPending ∧
    (subscribe extW true 2 "x" "http://b/" dbPending dataBob).2.2
      = [confirmationEmail extW "http://b/" "Bob" "bob@example.com" tokenBob] ∧
    (subscribe extW false 3 "y" "http://b/"
        ((subscribe extW true 2 "x" "http://b/" dbPending dataBob).2.1) dataBob).2.2
      = [confirmationEmail extW "http://b/" "Bob" "bob@example.com" tokenBob] := by
  exact c5_duplicate_subscribe extW "http://b/" dbPending dataBob bobRowPending
    { token := tokenBob, subscriberId := 1 } "Bob"
    (by decide) (by decide) rfl rfl (by decide) rfl rfl rfl
    true 2 "x" false 3 "y"

/-! ## Handler lemmas shared by the publish claims -/

theorem find?_append_singleton_none {α : Type} (p : α → Bool) (l : List α) (a : α)
    (h : l.find? p = none) (ha : p a = true) : (l ++ [a]).find? p = some a := by
  rw [find?_append_left_none p l [a] h]
  simp [List.find?, ha]

theorem saveResponse_roundtrip (db : Db) (k : String) (u : Uuid) (r : HttpResponse)
    (row : IdempotencyRow) (hrow : findIdempotencyRow db u k = some row)
    (h1 : 100 ≤ r.status) (h2 : r.status ≤ 999) :
    getSavedResponse (saveResponse db k u r).1 k u = .ok (some r) := by
  unfold findIdempotencyRow at hrow
  have hfind := find?_update_first (fun x => x.userId == u && x.key == k)
    (fun x => { x with response := some (encodeResponse r) })
    db.idempotency row hrow (by simpa using List.find?_some hrow)
  simp only [getSavedResponse, findIdempotencyRow, saveResponse, hfind]
  simp only [decode_encode_response r h1 h2, Except.map]

theorem handler_preserves_rows (emailValid : String → Bool) (sendOutcome : Nat → Bool)
    (db : Db) (u u0 : Uuid) (data : NewsletterFormData) (k0 : String)
    (row : IdempotencyRow)
    (hrow : findIdempotencyRow db u0 k0 = some row) :
    findIdempotencyRow
      (publishNewsletterWithIdempotentHandling emailValid sendOutcome db u data).2.1 u0 k0
      = some row := by
  cases htf : IdempotencyKey.tryFrom data.idempotencyKey with
  | error e =>
    simp only [publishNewsletterWithIdempotentHandling, htf]
    exact hrow
  | ok key =>
    simp only [publishNewsletterWithIdempotentHandling, htf]
    cases hgs : getSavedResponse db key u with
    | error e => exact hrow
    | ok o =>
      cases o with
      | some saved => exact hrow
      | none =>
        have hnone := getSavedResponse_ok_none db key u hgs
        cases hpub : publishNewsletter emailValid sendOutcome db data with
        | mk res sent =>
          cases res with
          | error e => exact hrow
          | ok uu =>
            simp only [saveResponsePool, hnone]
            unfold findIdempotencyRow at hrow ⊢
            exact find?_append_left_some _ _ _ _ hrow

theorem tryProcessing_preserves_rows (db : Db) (k : String) (u u0 : Uuid) (k0 : String)
    (row : IdempotencyRow) (txDb : Db)
    (hrow : findIdempotencyRow db u0 k0 = some row)
    (h : tryProcessing db k u = .ok (.startProcessing txDb)) :
    findIdempotencyRow txDb u0 k0 = some row := by
  unfold tryProcessing at h
  by_cases hex : (findIdempotencyRow db u k).isSome = true
  · rw [if_pos hex] at h
    cases hgs : getSavedResponse db k u with
    | error e => rw [hgs] at h; exact Except.noConfusion h
    | ok o =>
      rw [hgs] at h
      cases o with
      | none => exact Except.noConfusion h
      | some r =>
        injection h with h2
        exact NextAction.noConfusion h2
  · rw [if_neg hex] at h
    injection h with h2
    injection h2 with h3
    rw [← h3]
    unfold findIdempotencyRow at hrow ⊢
    exact find?_append_left_some _ _ _ _ hrow

theorem handler_frame (emailValid : String → Bool) (sendOutcome : Nat → Bool)
    (db : Db) (u : Uuid) (data : NewsletterFormData) :
    (publishNewsletterWithIdempotentHandling emailValid sendOutcome db u data).2.1.subscriptions
      = db.subscriptions ∧
    (publishNewsletterWithIdempotentHandling emailValid sendOutcome db u data).2.1.subscriptionTokens
      = db.subscriptionTokens ∧
    (publishNewsletterWithIdempotentHandling emailValid sendOutcome db u data).2.1.newsletterIssues
      = db.newsletterIssues ∧
    (publishNewsletterWithIdempotentHandling emailValid sendOutcome db u data).2.1.issueDeliveryQueue
      = db.issueDeliveryQueue := by
  cases htf : IdempotencyKey.tryFrom data.idempotencyKey with
  | error e =>
    simp only [publishNewsletterWithIdempotentHandling, htf]
    exact ⟨by trivial, by trivial, by trivial, by trivial⟩
  | ok key =>
    simp only [publishNewsletterWithIdempotentHandling, htf]
    cases hgs : getSavedResponse db key u with
    | error e => exact ⟨by trivial, by trivial, by trivial, by trivial⟩
    | ok o =>
      cases o with
      | some saved => exact ⟨by trivial, by trivial, by trivial, by trivial⟩
      | none =>
        cases hpub : publishNewsletter emailValid sendOutcome db data with
        | mk res sent =>
          cases res with
          | error e => exact ⟨by trivial, by trivial, by trivial, by trivial⟩
          | ok uu =>
            cases hf : findIdempotencyRow db u key <;>
              simp only [saveResponsePool, hf] <;> exact ⟨by trivial, by trivial, by trivial, by trivial⟩

theorem handler_fresh_run (emailValid : String → Bool) (db : Db) (u : Uuid)
    (data : NewsletterFormData)
    (hk1 : data.idempotencyKey.isEmpty = false)
    (hk2 : data.idempotencyKey.length ≤ 50)
    (hfresh : findIdempotencyRow db u data.idempotencyKey = none)
    (hvalid : ∀ s ∈ confirmedRows db, emailValid s.email = true) :
    publishNewsletterWithIdempotentHandling emailValid (fun _ => true) db u data
      = (.ok redirectToAdminNewsletters,
         { db with idempotency := db.idempotency
             ++ [{ userId := u, key := data.idempotencyKey
                   response := some (encodeResponse redirectToAdminNewsletters) }] },
         (confirmedRows db).map (fun s => mkNewsletterEmail data s.email)) := by
  have htf : IdempotencyKey.tryFrom data.idempotencyKey = .ok data.idempotencyKey := by
    unfold IdempotencyKey.tryFrom
    rw [if_neg (by simp [hk1]), if_neg (by omega)]
  have hgs : getSavedResponse db data.idempotencyKey u = .ok none := by
    simp only [getSavedResponse, hfresh]
  have hpub : publishNewsletter emailValid (fun _ => true) db data
      = (.ok (), (confirmedRows db).map (fun s => mkNewsletterEmail data s.email)) := by
    unfold publishNewsletter getConfirmedSubscribers
    rw [loop_all_ok, okEmails_all_valid emailValid _ hvalid, List.map_map]
    rfl
  simp only [publishNewsletterWithIdempotentHandling, htf, hgs, hpub, saveResponsePool, hfresh]

theorem handler_replay (emailValid : String → Bool) (sendOutcome : Nat → Bool)
    (db : Db) (u : Uuid) (data : NewsletterFormData)
    (row : IdempotencyRow) (sr : StoredResponse) (r : HttpResponse)
    (hk1 : data.idempotencyKey.isEmpty = false)
    (hk2 : data.idempotencyKey.length ≤ 50)
    (hrow : findIdempotencyRow db u data.idempotencyKey = some row)
    (hresp : row.response = some sr) (hdec : decodeStoredResponse sr = .ok r) :
    publishNewsletterWithIdempotentHandling emailValid sendOutcome db u data
      = (.ok r, db, []) := by
  have htf : IdempotencyKey.tryFrom data.idempotencyKey = .ok data.idempotencyKey := by
    unfold IdempotencyKey.tryFrom
    rw [if_neg (by simp [hk1]), if_neg (by omega)]
  have hgs : getSavedResponse db data.idempotencyKey u = .ok (some r) := by
    simp only [getSavedResponse, hrow, hresp, hdec, Except.map]
  simp only [publishNewsletterWithIdempotentHandling, htf, hgs]

/-! ## C4: response memo round-trip and immutability -/

/-- C4: the response memo is round-trip stable and immutable: (a) whenever
save_response persists a response R for an existing (user_id, key) row, any
later get_saved_response for that pair reconstructs R with byte-identical
status code, header pairs and body; (b) the publish handler never changes an
existing idempotency row once populated (its only write appends a new pair);
(c) a try_processing call that starts processing also leaves every existing
row intact. -/
theorem c4_response_memo_stability :
    (∀ (db : Db) (k : String) (u : Uuid) (r : HttpResponse) (row : IdempotencyRow),
      findIdempotencyRow db u k = some row → 100 ≤ r.status → r.status ≤ 999 →
      getSavedResponse (saveResponse db k u r).1 k u = .ok (some r)) ∧
    (∀ (emailValid : String → Bool) (sendOutcome : Nat → Bool) (db : Db) (u u0 : Uuid)
        (data : NewsletterFormData) (k0 : String) (row : IdempotencyRow),
      findIdempotencyRow db u0 k0 = some row → row.response.isSome = true →
      findIdempotencyRow
        (publishNewsletterWithIdempotentHandling emailValid sendOutcome db u data).2.1 u0 k0
        = some row) ∧
    (∀ (db : Db) (k : String) (u u0 : Uuid) (k0 : String) (row : IdempotencyRow) (txDb : Db),
      findIdempotencyRow db u0 k0 = some row →
      tryProcessing db k u = .ok (.startProcessing txDb) →
      findIdempotencyRow txDb u0 k0 = some row) := by
  refine ⟨?_, ?_, ?_⟩
  · intro db k u r row hrow hs1 hs2
    exact saveResponse_roundtrip db k u r row hrow hs1 hs2
  · intro emailValid sendOutcome db u u0 data k0 row hrow _hpop
    exact handler_preserves_rows emailValid sendOutcome db u u0 data k0 row hrow
  · intro db k u u0 k0 row txDb hrow h
    exact tryProcessing_preserves_rows db k u u0 k0 row txDb hrow h

/-- C4 witness: saving the redirect response over the reserved in-flight row
round-trips byte-identically, and a try_processing reservation under a fresh
key keeps the populated row intact. -/
theorem c4_response_memo_stability_witness :
    getSavedResponse (saveResponse dbInFlight "K1" 7 redirectToAdminNewsletters).1 "K1" 7
      = .ok (some redirectToAdminNewsletters) ∧
    findIdempotencyRow
      { dbSaved with idempotency := dbSaved.idempotency
          ++ [{ userId := 7, key := "K2", response := none }] } 7 "K1"
      = some dbSavedRow := by
  constructor
  · exact c4_response_memo_stability.1 dbInFlight "K1" 7 redirectToAdminNewsletters
      { userId := 7, key := "K1", response := none } rfl (by decide) (by decide)
  · exact c4_response_memo_stability.2.2 dbSaved "K2" 7 7 "K1" dbSavedRow
      { dbSaved with idempotency := dbSaved.idempotency
          ++ [{ userId := 7, key := "K2", response := none }] } rfl rfl

/-! ## C1: publish produces no issue or queue rows -/

/-- C1 counterexample: on a state with exactly one confirmed subscriber, the
first submission of a publish form succeeds but creates zero newsletter-issue
rows and zero delivery-queue rows, where the claim demands exactly one issue
row and one queue row. -/
theorem c1_counterexample :
    (publishNewsletterWithIdempotentHandling extW.emailValid (fun _ => true)
        dbOneConfirmed 7 data0).1 = .ok redirectToAdminNewsletters ∧
    (confirmedRows dbOneConfirmed).length = 1 ∧
    (publishNewsletterWithIdempotentHandling extW.emailValid (fun _ => true)
        dbOneConfirmed 7 data0).2.1.newsletterIssues.length = 0 ∧
    (publishNewsletterWithIdempotentHandling extW.emailValid (fun _ => true)
        dbOneConfirmed 7 data0).2.1.issueDeliveryQueue.length = 0 := by
  exact ⟨rfl, rfl, rfl, rfl⟩

/-- C1 (amended): for every authenticated publish request with a well-formed
fresh idempotency key, the first submission creates no newsletter-issue rows
and no delivery-queue rows; instead it invokes the email transport once per
confirmed subscriber, memoizes the redirect response for (user_id, key), and
a second submission of the same form with the same key performs no work and
returns the same memoized response. -/
theorem c1_publish_idempotent_no_rows (emailValid : String → Bool) (db : Db) (u : Uuid)
    (data : NewsletterFormData)
    (hk1 : data.idempotencyKey.isEmpty = false)
    (hk2 : data.idempotencyKey.length ≤ 50)
    (hfresh : findIdempotencyRow db u data.idempotencyKey = none)
    (hvalid : ∀ s ∈ confirmedRows db, emailValid s.email = true) :
    (publishNewsletterWithIdempotentHandling emailValid (fun _ => true) db u data).1
      = .ok redirectToAdminNewsletters ∧
    (publishNewsletterWithIdempotentHandling emailValid (fun _ => true) db u data).2.1.newsletterIssues
      = db.newsletterIssues ∧
    (publishNewsletterWithIdempotentHandling emailValid (fun _ => true) db u data).2.1.issueDeliveryQueue
      = db.issueDeliveryQueue ∧
    (publishNewsletterWithIdempotentHandling emailValid (fun _ => true) db u data).2.2.length
      = (confirmedRows db).length ∧
    (∀ sendOutcome2,
      publishNewsletterWithIdempotentHandling emailValid sendOutcome2
        ((publishNewsletterWithIdempotentHandling emailValid (fun _ => true) db u data).2.1) u data
      = (.ok redirectToAdminNewsletters,
         (publishNewsletterWithIdempotentHandling emailValid (fun _ => true) db u data).2.1,
         [])) := by
  have hrun := handler_fresh_run emailValid db u data hk1 hk2 hfresh hvalid
  rw [hrun]
  refine ⟨rfl, rfl, rfl, by simp, ?_⟩
  intro so2
  apply handler_replay emailValid so2 _ u data
    { userId := u, key := data.idempotencyKey
      response := some (encodeResponse redirectToAdminNewsletters) }
    (encodeResponse redirectToAdminNewsletters) redirectToAdminNewsletters hk1 hk2 ?_ rfl
    (decode_encode_response _ (by decide) (by decide))
  unfold findIdempotencyRow at hfresh ⊢
  exact find?_append_singleton_none _ _ _ hfresh (by simp)

/-- C1 witness: the amended theorem at one confirmed subscriber: one provider
invocation on first submission, and the second submission (under any provider
oracle) replays the memoized redirect with no invocations. -/
theorem c1_publish_idempotent_no_rows_witness :
    (publishNewsletterWithIdempotentHandling extW.emailValid (fun _ => true)
        dbOneConfirmed 7 data0).2.2.length = (confirmedRows dbOneConfirmed).length ∧
    (∀ sendOutcome2,
      publishNewsletterWithIdempotentHandling extW.emailValid sendOutcome2
        ((publishNewsletterWithIdempotentHandling extW.emailValid (fun _ => true)
            dbOneConfirmed 7 data0).2.1) 7 data0
      = (.ok redirectToAdminNewsletters,
         (publishNewsletterWithIdempotentHandling extW.emailValid (fun _ => true)
             dbOneConfirmed 7 data0).2.1,
         [])) := by
  have h := c1_publish_idempotent_no_rows extW.emailValid dbOneConfirmed 7 data0
    rfl (by decide) rfl (by decide)
  exact ⟨h.2.2.2.1, h.2.2.2.2⟩

/-! ## C2: the publish path sends inline, not via the queue -/

/-- C2 counterexample: the claim says the set of emails sent by the publish
request handler is empty; on a state with one confirmed subscriber the
handler performs exactly one provider invocation. -/
theorem c2_counterexample :
    (publishNewsletterWithIdempotentHandling extW.emailValid (fun _ => true)
        dbOneConfirmed 7 data0).2.2 = [mkNewsletterEmail data0 "bob@example.com"] ∧
    [mkNewsletterEmail data0 "bob@example.com"] ≠ ([] : List SentEmail) := by
  exact ⟨rfl, by decide⟩

/-- C2 (amended): the publish request path never writes a delivery-queue row,
and it invokes the email transport itself: under a well-formed fresh key with
valid stored emails and a provider that accepts every send, the handler
performs exactly one invocation per confirmed subscriber. -/
theorem c2_publish_sends_inline (emailValid : String → Bool) (sendOutcome : Nat → Bool)
    (db : Db) (u : Uuid) (data : NewsletterFormData)
    (hk1 : data.idempotencyKey.isEmpty = false)
    (hk2 : data.idempotencyKey.length ≤ 50)
    (hfresh : findIdempotencyRow db u data.idempotencyKey = none)
    (hvalid : ∀ s ∈ confirmedRows db, emailValid s.email = true) :
    (publishNewsletterWithIdempotentHandling emailValid sendOutcome db u data).2.1.issueDeliveryQueue
      = db.issueDeliveryQueue ∧
    (publishNewsletterWithIdempotentHandling emailValid (fun _ => true) db u data).2.2
      = (confirmedRows db).map (fun s => mkNewsletterEmail data s.email) := by
  refine ⟨(handler_frame emailValid sendOutcome db u data).2.2.2, ?_⟩
  rw [handler_fresh_run emailValid db u data hk1 hk2 hfresh hvalid]

/-- C2 witness: one confirmed subscriber yields a single inline provider
invocation and an unchanged delivery queue. -/
theorem c2_publish_sends_inline_witness :
    (publishNewsletterWithIdempotentHandling extW.emailValid (fun _ => true)
        dbOneConfirmed 7 data0).2.1.issueDeliveryQueue = dbOneConfirmed.issueDeliveryQueue ∧
    (publishNewsletterWithIdempotentHandling extW.emailValid (fun _ => true)
        dbOneConfirmed 7 data0).2.2
      = (confirmedRows dbOneConfirmed).map (fun s => mkNewsletterEmail data0 s.email) := by
  exact c2_publish_sends_inline extW.emailValid (fun _ => true) dbOneConfirmed 7 data0
    rfl (by decide) rfl (by decide)

/-! ## C10: the first transport error aborts the send loop -/

/-- C10: in the publish send loop the first transport error aborts the loop:
the handler returns an error, memoizes nothing (the database is unchanged),
does not attempt the remaining subscribers, and the invocations already made
for earlier subscribers stand; a retried request with the same key re-runs
identically, re-sending to those earlier subscribers. -/
theorem c10_first_send_error_aborts (emailValid : String → Bool) (sendOutcome : Nat → Bool)
    (db : Db) (u : Uuid) (data : NewsletterFormData) (xs : List String) (y : String)
    (zs : List (Except String String))
    (hk1 : data.idempotencyKey.isEmpty = false)
    (hk2 : data.idempotencyKey.length ≤ 50)
    (hfresh : findIdempotencyRow db u data.idempotencyKey = none)
    (hsubs : getConfirmedSubscribers emailValid db = xs.map .ok ++ .ok y :: zs)
    (hok : ∀ j, j < xs.length → sendOutcome j = true)
    (hfail : sendOutcome xs.length = false) :
    publishNewsletterWithIdempotentHandling emailValid sendOutcome db u data
      = (.error ("Failed to send newsletter issue to " ++ y), db,
         xs.map (mkNewsletterEmail data) ++ [mkNewsletterEmail data y]) ∧
    publishNewsletterWithIdempotentHandling emailValid sendOutcome
        ((publishNewsletterWithIdempotentHandling emailValid sendOutcome db u data).2.1) u data
      = (.error ("Failed to send newsletter issue to " ++ y), db,
         xs.map (mkNewsletterEmail data) ++ [mkNewsletterEmail data y]) := by
  have htf : IdempotencyKey.tryFrom data.idempotencyKey = .ok data.idempotencyKey := by
    unfold IdempotencyKey.tryFrom
    rw [if_neg (by simp [hk1]), if_neg (by omega)]
  have hgs : getSavedResponse db data.idempotencyKey u = .ok none := by
    simp only [getSavedResponse, hfresh]
  have hloop := loop_fail_at sendOutcome data y zs xs 0
    (by intro j hj; rw [Nat.zero_add]; exact hok j hj)
    (by rw [Nat.zero_add]; exact hfail)
  have hpub : publishNewsletter emailValid sendOutcome db data
      = (.error ("Failed to send newsletter issue to " ++ y),
         xs.map (mkNewsletterEmail data) ++ [mkNewsletterEmail data y]) := by
    unfold publishNewsletter
    rw [hsubs, hloop]
  have h1 : publishNewsletterWithIdempotentHandling emailValid sendOutcome db u data
      = (.error ("Failed to send newsletter issue to " ++ y), db,
         xs.map (mkNewsletterEmail data) ++ [mkNewsletterEmail data y]) := by
    simp only [publishNewsletterWithIdempotentHandling, htf, hgs, hpub]
  refine ⟨h1, ?_⟩
  rw [h1]
  exact h1

/-- C10 witness: with two confirmed subscribers and a provider that accepts
the first send and rejects the second, the handler stops after the failing
invocation, changes nothing, and a retry repeats the same two invocations. -/
theorem c10_first_send_error_aborts_witness :
    publishNewsletterWithIdempotentHandling extW.emailValid (fun i => i == 0)
        dbTwoConfirmed 7 data0
      = (.error ("Failed to send newsletter issue to " ++ "bob@example.com"), dbTwoConfirmed,
         ["ann@example.com"].map (mkNewsletterEmail data0)
           ++ [mkNewsletterEmail data0 "bob@example.com"]) := by
  exact (c10_first_send_error_aborts extW.emailValid (fun i => i == 0) dbTwoConfirmed 7 data0
    ["ann@example.com"] "bob@example.com" [] rfl (by decide) rfl rfl
    (by
      intro j hj
      have hj0 : j = 0 := by
        simp only [List.length_cons, List.length_nil] at hj
        omega
      rw [hj0]
      rfl) rfl).1

end Zero2Prod
